import Mathlib

/-!
Verification development for the OAuth 2.0 relay server.

The repository holds two near-duplicate variants of the same Express
server: `src/server.js` and `src/unnamed/part_000`.  They share the
`/auth`, `/logout`, `/api/frontdoor` and `/api/me` handlers verbatim and
differ only in the `/oauth/callback` handler, so the shared handlers are
embedded once and the callback handler twice (`oauthCallbackServerJs`,
`oauthCallbackPart000`).

Modelling conventions:
- JavaScript string-or-undefined values are `Option String`; JS
  truthiness of such a value (`undefined`, `null` and `""` are falsy) is
  the `truthy` predicate below.
- The provider is an oracle: each handler takes the outcome of its
  outbound HTTP call as an argument.  Axios with
  `validateStatus: s < 500` and `maxRedirects: 0` resolves every
  response with status < 500 (including 3xx and 4xx) and rejects
  (throws) on network errors and 5xx; this is the `ExchangeOutcome`
  type.  The default axios config used by `/api/frontdoor` resolves
  only 2xx and throws otherwise (`SingleAccessOutcome`).
- Token-endpoint bodies are modelled as JSON objects with the five
  optional fields the handlers read (`TokenBody`); `null` bodies are out
  of scope (axios delivers parsed JSON objects here).
- Each handler returns its HTTP reply, the resulting `req.session.sf`
  value, and the list of outbound token requests it issued, so that
  "no second exchange attempt" and "redirect never followed" are
  observable.
-/

/-- JS truthiness of a string-or-undefined value: `undefined` and `""`
are falsy, every other string is truthy. -/
def truthy : Option String → Bool
  | none => false
  | some s => s != ""

/-- The session record `req.session.sf`.  `server.js` writes only the
first three fields (the last two stay `none`); `part_000` writes all
five.  A field the provider response did not carry is `none`
(JS `undefined`). -/
structure SfSession where
  access_token : Option String
  refresh_token : Option String
  instance_url : Option String
  id : Option String
  issued_at : Option String
deriving Repr, DecidableEq

/-- JSON object body of a token-endpoint response, restricted to the
fields the handlers read. -/
structure TokenBody where
  access_token : Option String
  refresh_token : Option String
  instance_url : Option String
  id : Option String
  issued_at : Option String
deriving Repr, DecidableEq

/-- A token body with no fields at all. -/
def emptyBody : TokenBody := ⟨none, none, none, none, none⟩

/-- Outcome of an `axios.post` to the token endpoint with
`maxRedirects: 0` and `validateStatus: s < 500`: a resolved response
(status, parsed body, optional Location header) or a rejection
(network error or 5xx status). -/
inductive ExchangeOutcome where
  | resp (status : Nat) (data : TokenBody) (location : Option String)
  | thrown (msg : String)
deriving Repr, DecidableEq

/-- The environment-derived configuration read at startup. -/
structure Config where
  SF_LOGIN_URL : String
  CLIENT_ID : String
  CLIENT_SECRET : String
  REDIRECT_URI : String
deriving Repr, DecidableEq

/-- One outbound authorization-code token request: target URL plus the
five urlencoded form fields. -/
structure TokenRequest where
  url : String
  grant_type : String
  code : String
  client_id : String
  client_secret : String
  redirect_uri : String
deriving Repr, DecidableEq

/-- `SF_LOGIN_URL.replace(/\/$/, '')`: drop one trailing slash. -/
def stripTrailingSlash (s : String) : String :=
  if s.toList.getLast? = some ('/') then String.mk s.toList.dropLast else s

/-- The primary token request both callback variants build: POST to
`<login url without trailing slash>/services/oauth2/token`. -/
def tokenRequest (cfg : Config) (code : String) : TokenRequest :=
  { url := stripTrailingSlash cfg.SF_LOGIN_URL ++ "/services/oauth2/token"
    grant_type := "authorization_code"
    code := code
    client_id := cfg.CLIENT_ID
    client_secret := cfg.CLIENT_SECRET
    redirect_uri := cfg.REDIRECT_URI }

/-- The debug fallback token request of `part_000`'s catch block: same
form fields, but the URL is hardcoded to `login.salesforce.com`,
ignoring the configured `SF_LOGIN_URL`. -/
def altTokenRequest (cfg : Config) (code : String) : TokenRequest :=
  { url := "https://login.salesforce.com/services/oauth2/token"
    grant_type := "authorization_code"
    code := code
    client_id := cfg.CLIENT_ID
    client_secret := cfg.CLIENT_SECRET
    redirect_uri := cfg.REDIRECT_URI }

/-- An HTTP reply of the callback / logout handlers: a redirect or a
plain-text status response. -/
inductive HttpReply where
  | redirect (location : String)
  | text (status : Nat) (body : String)
deriving Repr, DecidableEq

/-- Result of one `/oauth/callback` request: the reply, the resulting
`req.session.sf`, and the outbound token requests issued. -/
structure CallbackResult where
  reply : HttpReply
  sf : Option SfSession
  attempts : List TokenRequest
deriving Repr, DecidableEq

/-- The `/oauth/callback` handler of `src/server.js` (lines 55-136).
Control flow: missing/empty `code` gives 400 with no outbound call;
otherwise one POST to the token endpoint.  A resolved 200 response with
a truthy `access_token` writes the session and redirects to `/`; any
other resolved response gives the 500 "unexpected response" text; a
rejection is caught and gives the 500 "See server logs." text.  The
alternate-host fallback block (lines 111-134) sits after both the
`try`'s and the `catch`'s unconditional `return` statements and is
unreachable, so it contributes nothing here. -/
def oauthCallbackServerJs (cfg : Config) (sf : Option SfSession)
    (code : Option String) (primary : ExchangeOutcome) : CallbackResult :=
  if !truthy code then
    { reply := .text 400 ("Missing code"), sf := sf, attempts := [] }
  else
    let c := code.getD ("")
    let req := tokenRequest cfg c
    match primary with
    | .thrown _ =>
        { reply := .text 500 ("OAuth token exchange failed. See server logs.")
          sf := sf
          attempts := [req] }
    | .resp status data _ =>
        if status == 200 && truthy data.access_token then
          { reply := .redirect ("/")
            sf := some { access_token := data.access_token
                         refresh_token := data.refresh_token
                         instance_url := data.instance_url
                         id := none
                         issued_at := none }
            attempts := [req] }
        else
          { reply := .text 500 ("OAuth token exchange failed — token endpoint returned unexpected response. See server logs.")
            sf := sf
            attempts := [req] }

/-- The `/oauth/callback` handler of `src/unnamed/part_000`
(lines 55-131).  Differences from `server.js`: a resolved response is
accepted as success whenever `status === 200`, with no check of
`access_token` (the session is written even from a token-less 200
body), the session write also copies `id` and `issued_at`, and the
catch block issues a reachable debug fallback token request to the
hardcoded `login.salesforce.com` endpoint (its outcome is only logged)
before replying 500. -/
def oauthCallbackPart000 (cfg : Config) (sf : Option SfSession)
    (code : Option String) (primary : ExchangeOutcome) : CallbackResult :=
  if !truthy code then
    { reply := .text 400 ("Missing code"), sf := sf, attempts := [] }
  else
    let c := code.getD ("")
    let req := tokenRequest cfg c
    match primary with
    | .thrown _ =>
        { reply := .text 500 ("OAuth token exchange failed. See server logs for details.")
          sf := sf
          attempts := [req, altTokenRequest cfg c] }
    | .resp status data _ =>
        if status == 200 then
          { reply := .redirect ("/")
            sf := some { access_token := data.access_token
                         refresh_token := data.refresh_token
                         instance_url := data.instance_url
                         id := data.id
                         issued_at := data.issued_at }
            attempts := [req] }
        else
          { reply := .text 500 ("OAuth token exchange failed — token endpoint returned error. See server logs.")
            sf := sf
            attempts := [req] }

/-- The `/logout` handler (identical in both variants):
`req.session.destroy` then redirect to `/`. -/
def logoutHandler (_sf : Option SfSession) : HttpReply × Option SfSession :=
  (.redirect ("/"), none)

/-- A JSON value appearing in an API response body: a boolean or a
string-or-undefined. -/
inductive JVal where
  | jbool (b : Bool)
  | jstr (s : Option String)
deriving Repr, DecidableEq

/-- The `/api/me` handler (identical in both variants), returning the
JSON body as a key-value list together with the unchanged session:
no `req.session.sf` gives `{authenticated: false}`; any present record
gives `{authenticated: true, instance_url: sf.instance_url}`. -/
def apiMe (sf : Option SfSession) : List (String × JVal) × Option SfSession :=
  match sf with
  | none => ([(("authenticated"), JVal.jbool false)], sf)
  | some s =>
      ([(("authenticated"), JVal.jbool true),
        (("instance_url"), JVal.jstr s.instance_url)], sf)

/-- Body of a single-access response: a JSON object carrying the two
accepted key names, or a raw string body. -/
inductive SingleAccessBody where
  | obj (frontdoor_uri : Option String) (frontdoor_url : Option String)
  | str (s : String)
deriving Repr, DecidableEq

/-- Outcome of the `axios.post` to `/services/oauth2/singleaccess` with
default config: resolves only on 2xx, rejects (throws) on everything
else including non-2xx statuses. -/
inductive SingleAccessOutcome where
  | success (data : SingleAccessBody)
  | failure (msg : String)
deriving Repr, DecidableEq

/-- `data.frontdoor_uri || data.frontdoor_url || (typeof data === 'string' ? data : null)`
followed by the `if (!frontdoor)` truthiness test: `none` is the falsy
result that triggers the fallback. -/
def extractFrontdoor : SingleAccessBody → Option String
  | .obj u v => if truthy u then u else if truthy v then v else none
  | .str s => if s != "" then some s else none

/-- JS `String.prototype.startsWith`, modelled as character-list
prefixing. -/
def startsWithJs (s p : String) : Bool :=
  p.toList.isPrefixOf s.toList

/-- Uppercase hex digit of a value below 16. -/
def hexUpper (n : Nat) : Char :=
  if n < 10 then Char.ofNat (48 + n) else Char.ofNat (55 + n)

/-- UTF-8 byte sequence of one character, as numbers below 256. -/
def utf8Bytes (c : Char) : List Nat :=
  let n := c.toNat
  if n < 128 then [n]
  else if n < 2048 then [192 + n / 64, 128 + n % 64]
  else if n < 65536 then [224 + n / 4096, 128 + n / 64 % 64, 128 + n % 64]
  else [240 + n / 262144, 128 + n / 4096 % 64, 128 + n / 64 % 64, 128 + n % 64]

/-- The characters JS `encodeURIComponent` leaves unescaped:
`A-Z a-z 0-9 - _ . ! ~ * ' ( )`. -/
def uriUnreserved (c : Char) : Bool :=
  c.isAlpha || c.isDigit ||
  c == Char.ofNat 45 || c == Char.ofNat 95 || c == Char.ofNat 46 ||
  c == Char.ofNat 33 || c == Char.ofNat 126 || c == Char.ofNat 42 ||
  c == Char.ofNat 39 || c == Char.ofNat 40 || c == Char.ofNat 41

/-- JS `encodeURIComponent`: unreserved characters pass through, every
other character is percent-encoded byte-by-byte in UTF-8 with uppercase
hex. -/
def encodeURIComponent (s : String) : String :=
  String.mk (s.toList.map (fun c =>
    if uriUnreserved c then [c]
    else (utf8Bytes c).map
      (fun b => [Char.ofNat 37, hexUpper (b / 16), hexUpper (b % 16)]) |>.flatten)).flatten

/-- An HTTP reply of the `/api/frontdoor` handler: a 200 JSON body
`{frontdoorUrl, note?}` or an error JSON body `{error, detail?}`. -/
inductive FdReply where
  | ok (frontdoorUrl : String) (note : Option String)
  | err (status : Nat) (error : String) (detail : Option String)
deriving Repr, DecidableEq

/-- The `/api/frontdoor` handler (identical in both variants).
Sessions without a truthy `access_token` and `instance_url` get 401.
Otherwise the single-access exchange runs: a rejection is caught and
becomes the 500 `singleaccess_failed` reply; a resolved response with
no usable URI yields the deterministic fallback URL tagged with the
fallback note; a usable URI is returned as-is when it starts with
`http` and prefixed with `instance_url` otherwise. -/
def apiFrontdoor (sf : Option SfSession) (outcome : SingleAccessOutcome) :
    FdReply × Option SfSession :=
  match sf with
  | none => (.err 401 ("not_authenticated") none, sf)
  | some s =>
      if !truthy s.access_token || !truthy s.instance_url then
        (.err 401 ("not_authenticated") none, sf)
      else
        match outcome with
        | .failure msg => (.err 500 ("singleaccess_failed") (some msg), sf)
        | .success data =>
            match extractFrontdoor data with
            | none =>
                (.ok (s.instance_url.getD ("") ++ "/secur/frontdoor.jsp?sid=" ++
                      encodeURIComponent (s.access_token.getD ("")))
                   (some ("fallback frontdoor (not recommended for prod)")), sf)
            | some fd =>
                (.ok (if startsWithJs fd ("http") then fd
                      else s.instance_url.getD ("") ++ fd) none, sf)

/-- One client-visible operation on a session. -/
inductive Op where
  | callback (code : Option String) (outcome : ExchangeOutcome)
  | logout
  | me
  | frontdoor (outcome : SingleAccessOutcome)
deriving Repr

/-- Session evolution of the `server.js` variant under one operation. -/
def stepServerJs (cfg : Config) (sf : Option SfSession) : Op → Option SfSession
  | .callback code outcome => (oauthCallbackServerJs cfg sf code outcome).sf
  | .logout => (logoutHandler sf).2
  | .me => (apiMe sf).2
  | .frontdoor outcome => (apiFrontdoor sf outcome).2

/-- Session state after a sequence of operations, `server.js` variant. -/
def runServerJs (cfg : Config) (sf : Option SfSession) (ops : List Op) :
    Option SfSession :=
  ops.foldl (stepServerJs cfg) sf

/-- The session has no record, or its record has a truthy access
token. -/
def tokenPresent : Option SfSession → Bool
  | none => true
  | some s => truthy s.access_token

/-- The session has no record, or its record has both a truthy access
token and a truthy instance URL (the spec's completeness invariant). -/
def completePair : Option SfSession → Bool
  | none => true
  | some s => truthy s.access_token && truthy s.instance_url

/-- A sample configuration with a tenant-specific login URL. -/
def cfgEx : Config :=
  { SF_LOGIN_URL := "https://myorg.my.salesforce.com"
    CLIENT_ID := "cid"
    CLIENT_SECRET := "csec"
    REDIRECT_URI := "https://app.example.com/oauth/callback" }

/-- The authenticated sample session of the spec's fallback example. -/
def sEx : SfSession :=
  ⟨some ("00Dabc!XYZ"), none, some ("https://example.my.salesforce.com"),
   none, none⟩

/-- Helper: one `server.js` operation preserves "no record, or a record
with a truthy access token". -/
theorem tokenPresent_step (cfg : Config) (sf : Option SfSession) (op : Op)
    (h : tokenPresent sf = true) : tokenPresent (stepServerJs cfg sf op) = true := by
  cases op with
  | logout => simp [stepServerJs, logoutHandler, tokenPresent]
  | me => cases sf <;> simpa [stepServerJs, apiMe] using h
  | frontdoor outcome =>
      cases sf with
      | none => simpa [stepServerJs, apiFrontdoor] using h
      | some s =>
          simp only [stepServerJs, apiFrontdoor]
          split
          · simpa using h
          · cases outcome with
            | failure m => simpa using h
            | success d =>
                cases hd : extractFrontdoor d <;> simpa [hd] using h
  | callback code outcome =>
      simp only [stepServerJs, oauthCallbackServerJs]
      split
      · simpa using h
      · cases outcome with
        | thrown m => simpa using h
        | resp status data loc =>
            by_cases hs : (status == 200 && truthy data.access_token) = true
            · simp only [hs, if_true, tokenPresent]
              exact ((Bool.and_eq_true _ _).mp hs).2
            · simp only [Bool.not_eq_true] at hs
              simpa [hs] using h

/-- Helper: the access-token half of the invariant holds along every
`server.js` operation sequence. -/
theorem tokenPresent_run (cfg : Config) (sf : Option SfSession) (ops : List Op)
    (h : tokenPresent sf = true) : tokenPresent (runServerJs cfg sf ops) = true := by
  induction ops generalizing sf with
  | nil => simpa [runServerJs] using h
  | cons op rest ih =>
      have hstep := tokenPresent_step cfg sf op h
      simpa [runServerJs, List.foldl] using ih _ hstep

/-- C1: for a callback whose code exchange returns HTTP 200 with no
access_token, the claim says the handler replies 500 and leaves the
session unauthenticated.  The `server.js` variant does exactly that,
but the `part_000` variant checks only the status: at the concrete
input (code present, resolved 200 response with an empty body) it
redirects to `/` and writes a session record whose fields are all
undefined, so the claim fails on `part_000` while the revised handler
in `server.js` shows the intended behaviour. -/
theorem c1_part000_accepts_tokenless_200 :
    oauthCallbackPart000 cfgEx none (some ("abc")) (.resp 200 emptyBody none) =
      { reply := .redirect ("/")
        sf := some ⟨none, none, none, none, none⟩
        attempts := [tokenRequest cfgEx ("abc")] } ∧
    (oauthCallbackPart000 cfgEx none (some ("abc")) (.resp 200 emptyBody none)).sf ≠ none ∧
    oauthCallbackServerJs cfgEx none (some ("abc")) (.resp 200 emptyBody none) =
      { reply := .text 500 ("OAuth token exchange failed — token endpoint returned unexpected response. See server logs.")
        sf := none
        attempts := [tokenRequest cfgEx ("abc")] } := by
  refine ⟨by decide, by decide, by decide⟩

/-- C2 counterexample: a single `server.js` callback on a fresh session,
with the provider resolving HTTP 200 and a body carrying a non-empty
access_token but no instance_url, persists a session record that has a
token but no instance URL — a reachable state that is neither
unauthenticated nor a complete pair, refuting the claimed invariant. -/
theorem c2_partial_record_reachable :
    runServerJs cfgEx none
        [Op.callback (some ("abc"))
          (.resp 200 ⟨some ("tok123"), none, none, none, none⟩ none)] =
      some ⟨some ("tok123"), none, none, none, none⟩ ∧
    completePair (some ⟨some ("tok123"), none, none, none, none⟩) = false ∧
    (some ⟨some ("tok123"), none, none, none, none⟩ : Option SfSession) ≠ none := by
  refine ⟨by decide, by decide, by decide⟩

/-- C2 amended: along every operation sequence of the `server.js`
variant starting from a fresh session, the session either has no record
or its record has a non-empty access token; completeness of the
instance URL is not enforced by the code (and the `part_000` variant
enforces neither field). -/
theorem c2_token_half_invariant (cfg : Config) (ops : List Op) :
    tokenPresent (runServerJs cfg none ops) = true :=
  tokenPresent_run cfg none ops rfl

/-- C4: the claim says a callback request never issues a second token
exchange.  In the `part_000` variant, when the primary exchange throws
(network failure or 5xx), the catch block issues a second exchange
attempt with the same code to the hardcoded
`https://login.salesforce.com/services/oauth2/token`, bypassing the
configured login URL; the `server.js` variant issues exactly one
attempt at the same input (its fallback block is unreachable). -/
theorem c4_part000_second_attempt :
    (oauthCallbackPart000 cfgEx none (some ("abc")) (.thrown ("socket hang up"))).attempts =
      [tokenRequest cfgEx ("abc"), altTokenRequest cfgEx ("abc")] ∧
    (altTokenRequest cfgEx ("abc")).url = "https://login.salesforce.com/services/oauth2/token" ∧
    (tokenRequest cfgEx ("abc")).url ≠ (altTokenRequest cfgEx ("abc")).url ∧
    (oauthCallbackServerJs cfgEx none (some ("abc")) (.thrown ("socket hang up"))).attempts =
      [tokenRequest cfgEx ("abc")] := by
  refine ⟨by decide, by decide, by decide, by decide⟩

/-- C3 counterexample: a reachable session record with a non-empty
access token but no instance URL is not a complete token pair, yet
`/api/me` answers `{authenticated: true, instance_url: undefined}`
instead of `{authenticated: false}` — the handler checks only that the
record exists. -/
theorem c3_incomplete_pair_reported_authenticated :
    completePair (some ⟨some ("tok123"), none, none, none, none⟩) = false ∧
    (apiMe (some ⟨some ("tok123"), none, none, none, none⟩)).1 =
      [(("authenticated"), JVal.jbool true), (("instance_url"), JVal.jstr none)] ∧
    (apiMe (some ⟨some ("tok123"), none, none, none, none⟩)).1 ≠
      [(("authenticated"), JVal.jbool false)] := by
  refine ⟨by decide, by decide, by decide⟩

/-- C3 amended: `/api/me` answers `{authenticated: false}` exactly when
no session record exists; with any record present — complete pair or
not — it answers `{authenticated: true, instance_url: record value}`;
and the body's only string value is the record's instance URL, so the
access and refresh tokens never appear in it. -/
theorem c3_me_checks_record_presence_only (sf : Option SfSession) :
    (sf = none → (apiMe sf).1 = [(("authenticated"), JVal.jbool false)]) ∧
    (∀ s, sf = some s →
      (apiMe sf).1 =
        [(("authenticated"), JVal.jbool true),
         (("instance_url"), JVal.jstr s.instance_url)] ∧
      ∀ p ∈ (apiMe sf).1, ∀ v, p.2 = JVal.jstr v → v = s.instance_url) := by
  cases sf with
  | none =>
      exact ⟨fun _ => rfl, fun s hs => by simp at hs⟩
  | some s0 =>
      refine ⟨fun h => by simp at h, fun s hs => ?_⟩
      obtain rfl : s = s0 := by injection hs with h; exact h.symm
      refine ⟨rfl, ?_⟩
      intro p hp v hv
      simp only [apiMe, List.mem_cons, List.mem_singleton, List.not_mem_nil] at hp
      rcases hp with h1 | h1 | h1
      · subst h1; simp at hv
      · subst h1; injection hv with h2; exact h2.symm
      · exact absurd h1 (by simp)

/-- C3 witness: the amended statement evaluated on a concrete
authenticated record. -/
theorem c3_witness :
    (apiMe (some ⟨some ("t"), none, some ("https://inst.example"), none, none⟩)).1 =
      [(("authenticated"), JVal.jbool true),
       (("instance_url"), JVal.jstr (some ("https://inst.example")))] :=
  ((c3_me_checks_record_presence_only
      (some ⟨some ("t"), none, some ("https://inst.example"), none, none⟩)).2
    ⟨some ("t"), none, some ("https://inst.example"), none, none⟩ rfl).1

/-- C7 counterexample: at the spec's own example — instance URL
`https://example.my.salesforce.com`, access token `00Dabc!XYZ`, a
successful single-access exchange with no URI — the code returns the
fallback URL ending in `sid=00Dabc!XYZ`, because JS
`encodeURIComponent` leaves `!` unescaped; it does not return the
`sid=00Dabc%21XYZ` URL the claim states. -/
theorem c7_bang_not_percent_encoded :
    (apiFrontdoor (some sEx) (.success (.obj none none))).1 =
      FdReply.ok ("https://example.my.salesforce.com/secur/frontdoor.jsp?sid=00Dabc!XYZ")
        (some ("fallback frontdoor (not recommended for prod)")) ∧
    (apiFrontdoor (some sEx) (.success (.obj none none))).1 ≠
      FdReply.ok ("https://example.my.salesforce.com/secur/frontdoor.jsp?sid=00Dabc%21XYZ")
        (some ("fallback frontdoor (not recommended for prod)")) := by
  refine ⟨by decide, by decide⟩

/-- C7 amended: for every authenticated session whose single-access
exchange succeeds with no usable URI, the fallback frontdoor URL equals
`instanceUrl ++ "/secur/frontdoor.jsp?sid=" ++ encodeURIComponent token`
with `encodeURIComponent` as implemented by JS, which leaves `!`
unescaped; at the spec's example the URL therefore ends in
`sid=00Dabc!XYZ`. -/
theorem c7_fallback_uses_encodeURIComponent (s : SfSession) (tok iurl : String)
    (d : SingleAccessBody)
    (hta : s.access_token = some tok) (ht : tok ≠ "")
    (hia : s.instance_url = some iurl) (hi : iurl ≠ "")
    (hd : extractFrontdoor d = none) :
    (apiFrontdoor (some s) (.success d)).1 =
      FdReply.ok (iurl ++ "/secur/frontdoor.jsp?sid=" ++ encodeURIComponent tok)
        (some ("fallback frontdoor (not recommended for prod)")) := by
  simp [apiFrontdoor, truthy, hta, hia, ht, hi, hd]

/-- C7 witness: the amended statement at the spec's example session. -/
theorem c7_witness :
    (apiFrontdoor (some sEx) (.success (.obj none none))).1 =
      FdReply.ok ("https://example.my.salesforce.com" ++ "/secur/frontdoor.jsp?sid=" ++
          encodeURIComponent ("00Dabc!XYZ"))
        (some ("fallback frontdoor (not recommended for prod)")) :=
  c7_fallback_uses_encodeURIComponent sEx ("00Dabc!XYZ")
    ("https://example.my.salesforce.com") (.obj none none) rfl (by decide) rfl (by decide) rfl

/-- C5: for an authenticated session, a single-access exchange that
throws yields the 500 `singleaccess_failed` reply (never the fallback
URL), and any reply carrying the fallback note can only arise from an
exchange that resolved successfully with no usable URI, in which case
the URL is the deterministic fallback construction. -/
theorem c5_no_silent_fallback (s : SfSession) (outcome : SingleAccessOutcome)
    (ht : truthy s.access_token = true) (hi : truthy s.instance_url = true) :
    (∀ msg, apiFrontdoor (some s) (.failure msg) =
      (.err 500 ("singleaccess_failed") (some msg), some s)) ∧
    (∀ url note, (apiFrontdoor (some s) outcome).1 = FdReply.ok url (some note) →
      ∃ d, outcome = .success d ∧ extractFrontdoor d = none ∧
        url = s.instance_url.getD ("") ++ "/secur/frontdoor.jsp?sid=" ++
          encodeURIComponent (s.access_token.getD (""))) := by
  constructor
  · intro msg
    simp [apiFrontdoor, ht, hi]
  · intro url note h
    cases outcome with
    | failure m =>
        simp [apiFrontdoor, ht, hi] at h
    | success d =>
        cases hd : extractFrontdoor d with
        | none =>
            refine ⟨d, rfl, hd, ?_⟩
            simp [apiFrontdoor, ht, hi, hd] at h
            exact h.1.symm
        | some fd =>
            simp [apiFrontdoor, ht, hi, hd] at h

/-- C5 witness: the transport-failure half evaluated on the sample
authenticated session. -/
theorem c5_witness :
    apiFrontdoor (some sEx) (.failure ("ECONNREFUSED")) =
      (.err 500 ("singleaccess_failed") (some ("ECONNREFUSED")), some sEx) :=
  (c5_no_silent_fallback sEx (.success (.obj none none)) (by decide) (by decide)).1
    ("ECONNREFUSED")

/-- C6: when the token endpoint answers with any 3xx status, both
callback variants reply 500, leave the session untouched, and issue no
further outbound request — in particular the Location target is never
fetched, so the redirect is never followed. -/
theorem c6_redirect_status_fails_exchange (cfg : Config) (sf : Option SfSession)
    (code : String) (data : TokenBody) (loc : Option String) (status : Nat)
    (hc : code ≠ "") (h3 : 300 ≤ status) (h4 : status < 400) :
    oauthCallbackServerJs cfg sf (some code) (.resp status data loc) =
      { reply := .text 500 ("OAuth token exchange failed — token endpoint returned unexpected response. See server logs.")
        sf := sf, attempts := [tokenRequest cfg code] } ∧
    oauthCallbackPart000 cfg sf (some code) (.resp status data loc) =
      { reply := .text 500 ("OAuth token exchange failed — token endpoint returned error. See server logs.")
        sf := sf, attempts := [tokenRequest cfg code] } := by
  have hne : (status == 200) = false := by
    have : status ≠ 200 := by omega
    simpa using this
  have htc : truthy (some code) = true := by simp [truthy, hc]
  constructor
  · simp [oauthCallbackServerJs, htc, hne]
  · simp [oauthCallbackPart000, htc, hne]

/-- C6 witness: a concrete 302 response with a Location header. -/
theorem c6_witness :
    oauthCallbackServerJs cfgEx none (some ("abc"))
        (.resp 302 emptyBody (some ("https://alt.example/login"))) =
      { reply := .text 500 ("OAuth token exchange failed — token endpoint returned unexpected response. See server logs.")
        sf := none, attempts := [tokenRequest cfgEx ("abc")] } ∧
    oauthCallbackPart000 cfgEx none (some ("abc"))
        (.resp 302 emptyBody (some ("https://alt.example/login"))) =
      { reply := .text 500 ("OAuth token exchange failed — token endpoint returned error. See server logs.")
        sf := none, attempts := [tokenRequest cfgEx ("abc")] } :=
  c6_redirect_status_fails_exchange cfgEx none ("abc") emptyBody
    (some ("https://alt.example/login")) 302 (by decide) (by decide) (by decide)

/-- Helper: a string starting with `/` cannot start with `http`. -/
theorem startsWithJs_slash_not_http (fd : String) (h : startsWithJs fd ("/") = true) :
    startsWithJs fd ("http") = false := by
  unfold startsWithJs at h ⊢
  have hsl : ("/").toList = [Char.ofNat 47] := rfl
  have hht : ("http").toList =
      [Char.ofNat 104, Char.ofNat 116, Char.ofNat 116, Char.ofNat 112] := rfl
  rw [hsl] at h
  rw [hht]
  cases hl : fd.toList with
  | nil => rw [hl] at h; exact absurd h (by decide)
  | cons c rest =>
      rw [hl] at h
      have hc : c = Char.ofNat 47 := by
        simp [List.isPrefixOf] at h
        exact h.symm
      subst hc
      simp [List.isPrefixOf]

/-- C8: for an authenticated session whose single-access exchange yields
a usable URI, a relative path (starting with `/`) is prefixed with the
session's instance URL, while a full URL (starting with `http`) is
returned unchanged. -/
theorem c8_relative_uri_prefixed (s : SfSession) (iurl : String)
    (d : SingleAccessBody) (fd : String)
    (ht : truthy s.access_token = true)
    (hia : s.instance_url = some iurl) (hi : iurl ≠ "")
    (hd : extractFrontdoor d = some fd) :
    (startsWithJs fd ("/") = true →
      (apiFrontdoor (some s) (.success d)).1 = FdReply.ok (iurl ++ fd) none) ∧
    (startsWithJs fd ("http") = true →
      (apiFrontdoor (some s) (.success d)).1 = FdReply.ok fd none) := by
  have hti : truthy (some iurl) = true := by simp [truthy, hi]
  constructor
  · intro hrel
    have hh := startsWithJs_slash_not_http fd hrel
    simp [apiFrontdoor, ht, hti, hd, hh, hia]
  · intro hfull
    simp [apiFrontdoor, ht, hti, hd, hfull, hia]

/-- C8 witness: the spec's concrete example
`{frontdoor_uri: "/secur/frontdoor.jsp?sid=abc"}`. -/
theorem c8_witness :
    (apiFrontdoor
        (some ⟨some ("t"), none, some ("https://example.my.salesforce.com"), none, none⟩)
        (.success (.obj (some ("/secur/frontdoor.jsp?sid=abc")) none))).1 =
      FdReply.ok ("https://example.my.salesforce.com" ++ "/secur/frontdoor.jsp?sid=abc") none :=
  (c8_relative_uri_prefixed
      ⟨some ("t"), none, some ("https://example.my.salesforce.com"), none, none⟩
      ("https://example.my.salesforce.com")
      (.obj (some ("/secur/frontdoor.jsp?sid=abc")) none)
      ("/secur/frontdoor.jsp?sid=abc")
      (by decide) rfl (by decide) rfl).1 (by decide)

/-- C9: with no (or an empty) `code` query parameter, both callback
variants answer 400 `Missing code`, issue no token request at all, and
leave the session unchanged. -/
theorem c9_missing_code_no_exchange (cfg : Config) (sf : Option SfSession)
    (code : Option String) (outcome : ExchangeOutcome)
    (h : truthy code = false) :
    oauthCallbackServerJs cfg sf code outcome =
      { reply := .text 400 ("Missing code"), sf := sf, attempts := [] } ∧
    oauthCallbackPart000 cfg sf code outcome =
      { reply := .text 400 ("Missing code"), sf := sf, attempts := [] } := by
  constructor <;> simp [oauthCallbackServerJs, oauthCallbackPart000, h]

/-- C9 witness: a request with no `code` at all. -/
theorem c9_witness :
    oauthCallbackServerJs cfgEx none none (.thrown ("unused")) =
      { reply := .text 400 ("Missing code"), sf := none, attempts := [] } ∧
    oauthCallbackPart000 cfgEx none none (.thrown ("unused")) =
      { reply := .text 400 ("Missing code"), sf := none, attempts := [] } :=
  c9_missing_code_no_exchange cfgEx none none (.thrown ("unused")) rfl

/-- C10: `/api/me` and `/api/frontdoor` return the session exactly as
they found it, on every input and every exchange outcome: the two
read-only endpoints never create, modify or destroy session state. -/
theorem c10_me_frontdoor_preserve_session (sf : Option SfSession)
    (outcome : SingleAccessOutcome) :
    (apiMe sf).2 = sf ∧ (apiFrontdoor sf outcome).2 = sf := by
  constructor
  · cases sf <;> rfl
  · cases sf with
    | none => rfl
    | some s =>
        simp only [apiFrontdoor]
        split
        · rfl
        · cases outcome with
          | failure m => rfl
          | success d => cases hd : extractFrontdoor d <;> simp [hd]
